import Mathlib

/-!
# gRPC: the blocking server-streaming call and the EventEngine TCP shim

A shallow embedding of

* `src/c/server_streaming_blocking_call.c`: open call, blocking read, terminate;
* `src/core/lib/iomgr/event_engine/tcp.cc`: the reference-counted TCP server, the
  connect and accept callbacks.

C functions become state-passing Lean functions.  Every call the C code makes into
code that is not part of these files (the batch executor, the completion queue, the
call object) goes through a `Runtime` record of functions over an arbitrary world `W`,
and is logged in a trace of `Event`s in program order.
-/

namespace Grpc

/-! ## Data model of the blocking streaming call -/

/-- A machine address.  Objects are named by their address, as in the C code. -/
abbrev Ptr := Nat

/-- The null pointer. -/
def NULL : Ptr := 0

/-- The primitive operations an op-set may list (the `grpc_op_*` managers named in
`server_streaming_blocking_call.c`, plus the three send operations). -/
inductive grpc_op_manager
  | grpc_op_send_metadata
  | grpc_op_send_object
  | grpc_op_send_close
  | grpc_op_recv_metadata
  | grpc_op_recv_object
  | grpc_op_recv_status
  deriving DecidableEq, Repr

open grpc_op_manager

/-- The method descriptor; the code reads only its `name`. -/
structure GRPC_method where
  name : String
  deriving DecidableEq, Repr

/-- A message: a data pointer and a length. -/
structure GRPC_message where
  data : Ptr
  length : Nat
  deriving DecidableEq, Repr

/-- The value of the compound literal `(GRPC_message) {0}`. -/
def GRPC_message.zero : GRPC_message := { data := 0, length := 0 }

/-- The terminal status of a call. -/
structure GRPC_status where
  ok : Bool
  code : Nat
  details : String
  deriving DecidableEq, Repr

/-- The per-call context.  The fields the three functions touch are listed by name;
`other` stands for every remaining field of the C struct. -/
structure grpc_client_context (α : Type) where
  deadline : Nat
  call : Ptr
  rpc_method : GRPC_method
  initial_metadata_received : Bool
  status : GRPC_status
  other : α
  deriving DecidableEq, Repr

/-- An operation batch as the designated initialisers of the C code build it: the
listed operations, the owning context, the tag; `message_received` is zero-initialised. -/
structure grpc_call_op_set where
  operations : List grpc_op_manager
  context : Ptr
  user_tag : Ptr
  message_received : Bool
  deriving DecidableEq, Repr

/-- The reader handle returned by the open call. -/
structure grpc_client_reader where
  context : Ptr
  call : Ptr
  cq : Ptr
  deriving DecidableEq, Repr

/-- One call out of the three functions into the rest of the library, with its
arguments (and, for the two constructors, the handle that came back). -/
inductive Event
  | completion_queue_create (cq : Ptr)
  | channel_create_call (channel cq : Ptr) (method host : String) (deadline : Nat)
      (call : Ptr)
  | start_batch (call set_addr : Ptr) (set : grpc_call_op_set) (context : Ptr)
      (request : GRPC_message) (response : Ptr)
  | pluck (cq tag : Ptr)
  | shutdown_and_destroy (cq : Ptr)
  | call_destroy (call : Ptr)
  | free_reader (reader : grpc_client_reader)
  deriving DecidableEq, Repr

/-- Modelled from the spec: the batch executor is not among the files at hand.  Per
§4.4 a completing batch may set the context's initial-metadata flag, write the
terminal status, fill other receive fields, and set the batch's message-received
flag; the call handle, the method and the deadline are inputs it does not write.
A `BatchWrite` is one such set of writes. -/
structure BatchWrite (α : Type) where
  message_received : Bool
  initial_metadata_received : Bool
  status : GRPC_status
  other : α

/-- The context after the writes of a batch. -/
def BatchWrite.apply {α : Type} (b : BatchWrite α) (c : grpc_client_context α) :
    grpc_client_context α :=
  { c with
    initial_metadata_received := b.initial_metadata_received
    status := b.status
    other := b.other }

/-- The library functions the three C functions call, as arbitrary functions over a
world `W` (the network, the peer, the queue internals).  Nothing is assumed of them. -/
structure Runtime (W α : Type) where
  GRPC_completion_queue_create : W → Ptr × W
  grpc_channel_create_call :
    (channel cq : Ptr) → (method host : String) → (deadline : Nat) → W → Ptr × W
  grpc_start_batch_from_op_set :
    (call set_addr : Ptr) → grpc_call_op_set → grpc_client_context α →
      (request : GRPC_message) → (response : Ptr) → W → BatchWrite α × W
  GRPC_completion_queue_pluck_internal :
    (cq tag : Ptr) → grpc_call_op_set → grpc_client_context α → W →
      Bool × BatchWrite α × W
  GRPC_completion_queue_shutdown_and_destroy : (cq : Ptr) → W → W
  grpc_call_destroy : (call : Ptr) → W → W

/-- Program state: the contexts in memory by address, the outside world, and the log
of library calls made so far. -/
structure State (W α : Type) where
  mem : Ptr → grpc_client_context α
  world : W
  trace : List Event

/-- Modelled from the spec: `tag.h` is not among the files; a tag is an opaque
address-sized value, here the address of the op-set record itself (§6), so `TAG` is
the pointer cast. -/
def TAG (x : Ptr) : Ptr := x

variable {W α : Type}

/-- The call site `grpc_start_batch_from_op_set(call, set, context, request, response)`:
logs the submission and applies what the executor writes to `*set` and `*context`. -/
def start_batch (rt : Runtime W α) (call set_addr : Ptr) (set : grpc_call_op_set)
    (context : Ptr) (request : GRPC_message) (response : Ptr) (s : State W α) :
    grpc_call_op_set × State W α :=
  let r := rt.grpc_start_batch_from_op_set call set_addr set (s.mem context) request
    response s.world
  ({ set with message_received := r.1.message_received },
   { mem := Function.update s.mem context (r.1.apply (s.mem context))
     world := r.2
     trace := s.trace ++ [Event.start_batch call set_addr set context request response] })

/-- The call site `GRPC_completion_queue_pluck_internal(cq, tag)`, where `set` is the
record living at address `tag`: logs the pluck, applies what completion writes to the
record and to its context, and yields the success flag. -/
def pluck (rt : Runtime W α) (cq tag : Ptr) (set : grpc_call_op_set) (s : State W α) :
    Bool × grpc_call_op_set × State W α :=
  let r := rt.GRPC_completion_queue_pluck_internal cq tag set (s.mem set.context) s.world
  (r.1,
   { set with message_received := r.2.1.message_received },
   { mem := Function.update s.mem set.context (r.2.1.apply (s.mem set.context))
     world := r.2.2
     trace := s.trace ++ [Event.pluck cq tag] })

/-- `GRPC_server_streaming_blocking_read` (lines 81-106).  The two local op-sets live at
`frame` (`set_meta`) and `frame + 1` (`set_no_meta`); `pSet` is the address and the
record it points to. -/
def GRPC_server_streaming_blocking_read (rt : Runtime W α) (frame : Ptr)
    (reader : grpc_client_reader) (response : Ptr) (s : State W α) :
    Bool × State W α :=
  let set_meta : grpc_call_op_set :=
    { operations := [grpc_op_recv_metadata, grpc_op_recv_object]
      context := reader.context
      user_tag := frame
      message_received := false }
  let set_no_meta : grpc_call_op_set :=
    { operations := [grpc_op_recv_object]
      context := reader.context
      user_tag := frame + 1
      message_received := false }
  let pSet : Ptr × grpc_call_op_set :=
    if (s.mem reader.context).initial_metadata_received = false then (frame, set_meta)
    else (frame + 1, set_no_meta)
  let b := start_batch rt reader.call pSet.1 pSet.2 reader.context GRPC_message.zero
    response s
  let p := pluck rt reader.cq (TAG pSet.1) b.1 b.2
  (p.1 && p.2.1.message_received, p.2.2)

/-- The op-set a read submits, and its address, given the metadata flag at the time of
the call. -/
def read_batch (frame : Ptr) (reader : grpc_client_reader) (flag : Bool) :
    Ptr × grpc_call_op_set :=
  if flag = false then
    (frame,
     { operations := [grpc_op_recv_metadata, grpc_op_recv_object]
       context := reader.context, user_tag := frame, message_received := false })
  else
    (frame + 1,
     { operations := [grpc_op_recv_object]
       context := reader.context, user_tag := frame + 1, message_received := false })

/-- A sequence of reads on one reader, each with its own frame address and response
pointer; returns the results in order. -/
def reads (rt : Runtime W α) (reader : grpc_client_reader) :
    List (Ptr × Ptr) → State W α → List Bool × State W α
  | [], s => ([], s)
  | fr :: rest, s =>
    let r := GRPC_server_streaming_blocking_read rt fr.1 reader fr.2 s
    let t := reads rt reader rest r.2
    (r.1 :: t.1, t.2)

/-- The op-sets submitted in a log, in order. -/
def submitted : List Event → List grpc_call_op_set
  | [] => []
  | Event.start_batch _ _ set _ _ _ :: es => set :: submitted es
  | _ :: es => submitted es

/-- The assumption on the batch executor under which metadata is requested once: when a
batch listing receive-metadata has completed (its tag was plucked, with whatever
outcome) the context's flag is set, and no completing batch clears a flag that was
set. -/
def Runtime.SetsMetadataFlag (rt : Runtime W α) : Prop :=
  ∀ (call cq addr : Ptr) (set : grpc_call_op_set) (request : GRPC_message)
    (response : Ptr) (s : State W α),
    let b := start_batch rt call addr set set.context request response s
    let p := pluck rt cq (TAG addr) b.1 b.2
    (grpc_op_recv_metadata ∈ set.operations →
        (p.2.2.mem set.context).initial_metadata_received = true) ∧
      ((s.mem set.context).initial_metadata_received = true →
        (p.2.2.mem set.context).initial_metadata_received = true)

/-- What the peer delivers for one batch. -/
structure Delivery where
  success : Bool
  message : Bool
  status : GRPC_status
  deriving DecidableEq, Repr

/-- Modelled from the spec: a scripted executor following §4.4, used to exhibit
concrete runs.  The world is the list of deliveries still to come; submission writes
nothing; completion of a batch consumes one delivery, and receive-metadata sets the
context's flag, receive-message sets the batch's message flag when a message arrived,
receive-status stores the delivered status.  Queue and call handles are fixed
addresses. -/
def scripted : Runtime (List Delivery) Unit where
  GRPC_completion_queue_create w := (100, w)
  grpc_channel_create_call _ _ _ _ _ w := (200, w)
  grpc_start_batch_from_op_set _ _ set c _ _ w :=
    ({ message_received := set.message_received
       initial_metadata_received := c.initial_metadata_received
       status := c.status
       other := c.other }, w)
  GRPC_completion_queue_pluck_internal _ _ set c w :=
    let d := w.headD { success := false, message := false, status := c.status }
    (d.success,
     { message_received :=
         decide (grpc_op_recv_object ∈ set.operations) && d.message
       initial_metadata_received :=
         c.initial_metadata_received || decide (grpc_op_recv_metadata ∈ set.operations)
       status := if grpc_op_recv_status ∈ set.operations then d.status else c.status
       other := c.other },
     w.tail)
  GRPC_completion_queue_shutdown_and_destroy _ w := w
  grpc_call_destroy _ w := w

/-- A context before the call is opened: no call, flag clear. -/
def fresh_context : grpc_client_context Unit :=
  { deadline := 5000
    call := NULL
    rpc_method := { name := "" }
    initial_metadata_received := false
    status := { ok := false, code := 2, details := "" }
    other := () }

/-- A state in which every address holds a fresh context and the peer will deliver
`script`. -/
def fresh_state (script : List Delivery) : State (List Delivery) Unit :=
  { mem := fun _ => fresh_context, world := script, trace := [] }

/-- An `absl::Status`: a code (0 is OK) and a message. -/
structure absl_Status where
  code : Nat
  message : String
  deriving DecidableEq, Repr

/-- The status `ok()` test. -/
def absl_Status.ok (st : absl_Status) : Bool := decide (st.code = 0)

/-- A `grpc_error*`: no error, or the error made from a non-OK status. -/
inductive grpc_error
  | GRPC_ERROR_NONE
  | from_status (code : Nat) (message : String)
  deriving DecidableEq, Repr

/-- Modelled from the spec: `error_utils` is not among the files.  The conversion
yields "the corresponding error" (§4.3): none for an OK status, otherwise the error
carrying the status code and message. -/
def absl_status_to_grpc_error (st : absl_Status) : grpc_error :=
  if st.code = 0 then grpc_error.GRPC_ERROR_NONE
  else grpc_error.from_status st.code st.message

/-- An `EventEngine::ResolvedAddress`: the bytes behind `address()` and `size()`. -/
structure ResolvedAddress where
  address : List Nat
  size : Nat
  deriving DecidableEq, Repr

/-- A `grpc_resolved_address`: the byte buffer `addr` and `len`. -/
structure grpc_resolved_address where
  addr : List Nat
  len : Nat
  deriving DecidableEq, Repr

/-- The effect of `memcpy(dst, src, n)` on the destination buffer: its first `n` bytes
become the first `n` bytes of `src`, the rest is kept. -/
def memcpy (dst src : List Nat) (n : Nat) : List Nat :=
  src.take n ++ dst.drop n

/-- `CreateGRPCResolvedAddress` (`util.cc` lines 52-58).  `uninit` is the content of the
uninitialised local `grpc_addr.addr` before the copy. -/
def CreateGRPCResolvedAddress (uninit : List Nat) (ra : ResolvedAddress) :
    grpc_resolved_address :=
  { addr := memcpy uninit ra.address ra.size, len := ra.size }

/-- An `EventEngine::Endpoint` as far as the shim uses it: its identity and what
`GetLocalAddress()` returns. -/
structure Endpoint where
  handle : Ptr
  GetLocalAddress : ResolvedAddress
  deriving DecidableEq, Repr

/-- What the shim does that can be observed from outside, in program order. -/
inductive TcpEvent
  | mu_init
  | mu_lock
  | mu_unlock
  | mu_destroy
  | closure_run (closure : Ptr) (error : grpc_error)
  | exec_ctx_flush
  | listener_release (listener : Ptr)
  | engine_release (engine : Ptr)
  | resource_quota_unref (rq : Ptr)
  | free_server
  | on_accept_cb (cb arg : Ptr) (endpoint : Endpoint)
  deriving DecidableEq, Repr

/-- A variable a lambda captured by reference (`[&]`): `alive v` while the variable
exists and holds `v`, `dead` once the function that declared it has returned. -/
inductive Ref (α : Type)
  | alive (v : α)
  | dead
  deriving DecidableEq, Repr

/-- How a callback invocation ends: it returns, it dereferences a null pointer, or it
reads a captured reference whose variable is dead; each with the state reached. -/
inductive Run (σ : Type)
  | returned (s : σ)
  | null_dereference (s : σ)
  | dangling_reference (s : σ)

/-- An `EventEngine::Listener::AcceptCallback`: what it does when the listener reports
a connection with a status and an endpoint (null when there is none). -/
abbrev AcceptCallback := absl_Status → Option Endpoint → List TcpEvent

/-- An `EventEngine::Callback`: how an invocation with a status ends, and the events it
emitted. -/
abbrev Callback := absl_Status → Run (List TcpEvent)

/-- The body of the lambda in `GrpcClosureToCallback` (`util.cc` lines 40-49), given the
captured reference to `closure`: it reads `closure` and runs it with the error of the
status. -/
def closure_callback_lambda (closure : Ref Ptr) : Callback :=
  fun status =>
    match closure with
    | Ref.dead => Run.dangling_reference []
    | Ref.alive c =>
      Run.returned [TcpEvent.closure_run c (absl_status_to_grpc_error status)]

/-- `GrpcClosureToCallback` (`util.cc` lines 39-50).  The lambda captures the parameter
`closure` by reference; the callback is what the caller receives, after the function has
returned and the parameter is dead. -/
def GrpcClosureToCallback (_closure : Ptr) : Callback :=
  closure_callback_lambda Ref.dead

/-- `GrpcClosureToAcceptCallback` (`tcp.cc` lines 67-71): the closure is discarded and
the callback returned has an empty body. -/
def GrpcClosureToAcceptCallback (_closure : Ptr) : AcceptCallback :=
  fun _ _ => []

/-- A listener: its handle and the accept callback it was created with, which it calls
for every connection it reports. -/
structure Listener where
  handle : Ptr
  on_accept : AcceptCallback

/-- The listener reports one inbound connection. -/
def Listener.inbound_connection (l : Listener) (status : absl_Status)
    (endpoint : Option Endpoint) : List TcpEvent :=
  l.on_accept status endpoint

/-- An event engine as far as `tcp_server_create` uses it: its identity and
`CreateListener`, which yields a listener handle or a status. -/
structure EventEngine where
  handle : Ptr
  CreateListener : AcceptCallback → Callback → (rq : Ptr) → Except absl_Status Ptr

/-- `GetDefaultEventEngine` (`util.cc` lines 33-36): returns `nullptr`. -/
def GetDefaultEventEngine : Option EventEngine := none

/-- `struct grpc_tcp_server` (`tcp.cc` lines 38-45); the mutex shows in the log only. -/
structure grpc_tcp_server where
  refs : Int
  listener : Option Listener
  engine : Option Ptr
  shutdown_starting : List Ptr
  resource_quota : Ptr

/-- The server object and the log. -/
structure TcpState where
  server : grpc_tcp_server
  trace : List TcpEvent

/-- Modelled from the spec: the `gpr` reference count is not among the files; it is a
count that `ref` increments and `unref` decrements, the object being destroyed when it
reaches zero (§3).  This is the count after `gpr_ref_init(&r, n)`. -/
def gpr_ref_init (n : Int) : Int := n

/-- Modelled from the spec: the count after `gpr_ref_non_zero`, one more (callers
apply it to a positive count only). -/
def gpr_ref_non_zero (count : Int) : Int := count + 1

/-- Modelled from the spec: `gpr_unref` takes one off the count and returns true
exactly when that brought the count to zero. -/
def gpr_unref (count : Int) : Bool × Int := (decide (count = 1), count - 1)

/-- How `tcp_server_create` ends. -/
inductive CreateResult
  | null_dereference
  | failed (error : grpc_error)
  | created (s : TcpState) (error : grpc_error)

/-- `tcp_server_create` (`tcp.cc` lines 106-139).  `ee` is what
`GetDefaultEventEngine()` returned, `args_rq` what
`grpc_resource_quota_from_channel_args(args)` returned and `new_rq` what
`grpc_resource_quota_create(nullptr)` returns. -/
def tcp_server_create (ee : Option EventEngine) (shutdown_complete : Ptr)
    (args_rq new_rq : Ptr) : CreateResult :=
  let rq := if args_rq = NULL then new_rq else args_rq
  match ee with
  | none => CreateResult.null_dereference
  | some e =>
    match e.CreateListener (GrpcClosureToAcceptCallback NULL)
        (GrpcClosureToCallback shutdown_complete) rq with
    | Except.error st => CreateResult.failed (absl_status_to_grpc_error st)
    | Except.ok h =>
      CreateResult.created
        { server :=
            { refs := gpr_ref_init 1
              listener := some
                { handle := h, on_accept := GrpcClosureToAcceptCallback NULL }
              engine := some e.handle
              shutdown_starting := []
              resource_quota := rq }
          trace := [TcpEvent.mu_init] }
        grpc_error.GRPC_ERROR_NONE

/-- `tcp_server_start` (`tcp.cc` lines 141-150): every argument is discarded. -/
def tcp_server_start (s : TcpState) (_pollsets : List Ptr) (_on_accept_cb _cb_arg : Ptr) :
    TcpState := s

/-- `tcp_server_ref` (`tcp.cc` lines 184-187). -/
def tcp_server_ref (s : TcpState) : TcpState :=
  { s with server := { s.server with refs := gpr_ref_non_zero s.server.refs } }

/-- `tcp_server_shutdown_starting_add` (`tcp.cc` lines 189-195): appends the closure,
with `GRPC_ERROR_NONE`, under the mutex. -/
def tcp_server_shutdown_starting_add (s : TcpState) (shutdown_starting : Ptr) : TcpState :=
  { server := { s.server with
      shutdown_starting := s.server.shutdown_starting ++ [shutdown_starting] }
    trace := s.trace ++ [TcpEvent.mu_lock, TcpEvent.mu_unlock] }

/-- The server's memory after a vtable call: still allocated, or released by the
`gpr_free` of `tcp_server_destroy`, in which case only the log remains. -/
inductive ServerMem
  | live (s : TcpState)
  | freed (trace : List TcpEvent)

/-- The log, whether the server is still allocated or not. -/
def ServerMem.trace : ServerMem → List TcpEvent
  | ServerMem.live s => s.trace
  | ServerMem.freed t => t

/-- `tcp_server_destroy` (`tcp.cc` lines 197-204): destroys the mutex, resets the
listener and the engine pointers (releasing what they held), unrefs the resource quota
and frees the server, which does not exist afterwards. -/
def tcp_server_destroy (s : TcpState) : ServerMem :=
  ServerMem.freed
    (s.trace ++ [TcpEvent.mu_destroy] ++
      (match s.server.listener with
       | some l => [TcpEvent.listener_release l.handle]
       | none => []) ++
      (match s.server.engine with
       | some e => [TcpEvent.engine_release e]
       | none => []) ++
      [TcpEvent.resource_quota_unref s.server.resource_quota, TcpEvent.free_server])

/-- Modelled from the spec: the execution context is not among the files.
`ExecCtx::RunList` followed by `Flush` runs every closure of the list once, in list
order, with the error stored at append time (the caller then holds an empty list). -/
def RunList (list : List Ptr) : List TcpEvent :=
  list.map (fun c => TcpEvent.closure_run c grpc_error.GRPC_ERROR_NONE) ++
    [TcpEvent.exec_ctx_flush]

/-- `tcp_server_unref` (`tcp.cc` lines 206-215): when `gpr_unref` reports the count
reached zero, the closure list is run under the mutex and the server is destroyed;
otherwise only the count changes. -/
def tcp_server_unref (s : TcpState) : ServerMem :=
  let u := gpr_unref s.server.refs
  let s1 : TcpState := { s with server := { s.server with refs := u.2 } }
  if u.1 then
    tcp_server_destroy
      { server := { s1.server with shutdown_starting := [] }
        trace := s1.trace ++ [TcpEvent.mu_lock] ++ RunList s1.server.shutdown_starting ++
          [TcpEvent.mu_unlock] }
  else ServerMem.live s1

/-- `tcp_server_shutdown_listeners` (`tcp.cc` lines 217-218): a no-op. -/
def tcp_server_shutdown_listeners (s : TcpState) : TcpState := s

/-- A call on the server through its vtable. -/
inductive ServerOp
  | ref
  | unref
  | shutdown_starting_add (closure : Ptr)
  | shutdown_listeners
  deriving DecidableEq, Repr

/-- One vtable call on an allocated server. -/
def ServerOp.step : ServerOp → TcpState → ServerMem
  | ServerOp.ref, s => ServerMem.live (tcp_server_ref s)
  | ServerOp.unref, s => tcp_server_unref s
  | ServerOp.shutdown_starting_add c, s =>
    ServerMem.live (tcp_server_shutdown_starting_add s c)
  | ServerOp.shutdown_listeners, s => ServerMem.live (tcp_server_shutdown_listeners s)

/-- A sequence of vtable calls, in order.  A call on a server that was freed is a use
after free: the run has no defined result (`none`). -/
def run_ops : List ServerOp → ServerMem → Option ServerMem
  | [], m => some m
  | op :: ops, ServerMem.live s => run_ops ops (op.step s)
  | _ :: _, ServerMem.freed _ => none

/-- The part of a log written by `tcp_server_destroy`. -/
def destroy_events (t : List TcpEvent) : List TcpEvent :=
  t.filter (fun e =>
    match e with
    | TcpEvent.mu_destroy => true
    | TcpEvent.listener_release _ => true
    | TcpEvent.engine_release _ => true
    | TcpEvent.resource_quota_unref _ => true
    | TcpEvent.free_server => true
    | _ => false)

/-- How many times `tcp_server_destroy` has run: it ends with the one `gpr_free`. -/
def destroy_count (t : List TcpEvent) : Nat := t.count TcpEvent.free_server

/-- The closures a log shows as run, in order. -/
def closure_runs (t : List TcpEvent) : List Ptr :=
  t.filterMap (fun e =>
    match e with
    | TcpEvent.closure_run c _ => some c
    | _ => none)

/-- The closures a sequence of calls registers, in order. -/
def registered : List ServerOp → List Ptr
  | [] => []
  | ServerOp.shutdown_starting_add c :: ops => c :: registered ops
  | _ :: ops => registered ops

/-- `struct grpc_event_engine_endpoint` as far as the connect callback writes it. -/
structure grpc_event_engine_endpoint where
  endpoint : Option Endpoint
  local_address : String
  deriving DecidableEq, Repr

/-- The endpoint object the connect callback fills, and the log. -/
structure ConnectState where
  grpc_endpoint_out : grpc_event_engine_endpoint
  trace : List TcpEvent
  deriving DecidableEq, Repr

/-- The body of the lambda in `GrpcClosureToOnConnectCallback` (`tcp.cc` lines 55-64),
given the two captured references and invoked with `status` and `endpoint` (`none` is
the null pointer).  It reads `grpc_endpoint_out` and stores the endpoint through it,
calls `endpoint->GetLocalAddress()`, converts the address to a URI with
`grpc_sockaddr_to_uri`, and only then reads `closure` and runs it.  The state holds the
object `grpc_endpoint_out` points to. -/
def on_connect_lambda (grpc_sockaddr_to_uri : grpc_resolved_address → String)
    (uninit : List Nat) (closure grpc_endpoint_out : Ref Ptr) (status : absl_Status)
    (endpoint : Option Endpoint) (s : ConnectState) : Run ConnectState :=
  match grpc_endpoint_out with
  | Ref.dead => Run.dangling_reference s
  | Ref.alive _ =>
    let s1 : ConnectState :=
      { s with grpc_endpoint_out := { s.grpc_endpoint_out with endpoint := endpoint } }
    match endpoint with
    | none => Run.null_dereference s1
    | some ep =>
      let gaddr := CreateGRPCResolvedAddress uninit ep.GetLocalAddress
      let s2 : ConnectState :=
        { s1 with grpc_endpoint_out :=
            { s1.grpc_endpoint_out with local_address := grpc_sockaddr_to_uri gaddr } }
      match closure with
      | Ref.dead => Run.dangling_reference s2
      | Ref.alive c =>
        Run.returned
          { s2 with trace := s2.trace ++
              [TcpEvent.closure_run c (absl_status_to_grpc_error status)] }

/-- `GrpcClosureToOnConnectCallback(closure, grpc_endpoint_out)` (`tcp.cc` lines 53-65).
The lambda captures both parameters by reference; the callback is what the caller
receives, after the function has returned and both parameters are dead. -/
def GrpcClosureToOnConnectCallback (grpc_sockaddr_to_uri : grpc_resolved_address → String)
    (uninit : List Nat) (_closure _grpc_endpoint_out : Ptr) :
    absl_Status → Option Endpoint → ConnectState → Run ConnectState :=
  on_connect_lambda grpc_sockaddr_to_uri uninit Ref.dead Ref.dead

/-- The log reached by a callback invocation, however it ended. -/
def Run.trace : Run ConnectState → List TcpEvent
  | Run.returned s => s.trace
  | Run.null_dereference s => s.trace
  | Run.dangling_reference s => s.trace

/-- A test engine whose `CreateListener` succeeds with listener handle 11. -/
def test_engine : EventEngine :=
  { handle := 9, CreateListener := fun _ _ _ => Except.ok 11 }

/-- The server `tcp_server_create` builds with `test_engine`, shutdown closure 40 and
resource quota 30 taken from the channel arguments. -/
def test_server : TcpState :=
  { server :=
      { refs := 1
        listener := some { handle := 11, on_accept := GrpcClosureToAcceptCallback NULL }
        engine := some 9
        shutdown_starting := []
        resource_quota := 30 }
    trace := [TcpEvent.mu_init] }

/-- The server `test_server` after a ref, the registration of closure 77 and an unref:
the count is one again and the closure is on the list. -/
def test_server_at_one : TcpState :=
  { server :=
      { refs := 1
        listener := some { handle := 11, on_accept := GrpcClosureToAcceptCallback NULL }
        engine := some 9
        shutdown_starting := [77]
        resource_quota := 30 }
    trace := [TcpEvent.mu_init, TcpEvent.mu_lock, TcpEvent.mu_unlock] }

/-- The server is live: the count is positive, it holds listener `l`, engine `e`, quota
`rq` and the registered closures `cs`, and the log shows no destroy and no closure
run. -/
def Alive (l e rq : Ptr) (cs : List Ptr) (s : TcpState) : Prop :=
  1 ≤ s.server.refs ∧ s.server.listener.map Listener.handle = some l ∧
    s.server.engine = some e ∧ s.server.resource_quota = rq ∧
    s.server.shutdown_starting = cs ∧ destroy_events s.trace = [] ∧
    closure_runs s.trace = []

/-- The log after the unref that brings the count of `s` to zero: the closure list is
run under the mutex, then `tcp_server_destroy` destroys the mutex, releases listener `l`
and engine `e`, unrefs quota `rq` and frees the server. -/
def last_unref_trace (l e rq : Ptr) (s : TcpState) : List TcpEvent :=
  s.trace ++ [TcpEvent.mu_lock] ++
    s.server.shutdown_starting.map
      (fun c => TcpEvent.closure_run c grpc_error.GRPC_ERROR_NONE) ++
    [TcpEvent.exec_ctx_flush, TcpEvent.mu_unlock, TcpEvent.mu_destroy,
     TcpEvent.listener_release l, TcpEvent.engine_release e,
     TcpEvent.resource_quota_unref rq, TcpEvent.free_server]

/-- Modelled from the spec: the `EventEngine::ResolvedAddress` constructor is declared
outside the files.  It builds the (byte buffer + length) value of §6 from a socket
address and its size: the first `size` bytes of the buffer are copied from `address`
and `size()` is `size`.  `uninit` is the buffer before the copy. -/
def ResolvedAddress.ctor (uninit address : List Nat) (size : Nat) : ResolvedAddress :=
  { address := memcpy uninit address size, size := size }

/-- What `EventEngine::ResolvedAddress ra(addr, len)` is taken to do when `len` bytes
can be read from `addr`: `ra.size()` is `len` and the first `len` bytes behind
`ra.address()` are those of `addr`. -/
def CopiesAddress (ctor : List Nat → Nat → ResolvedAddress) : Prop :=
  ∀ (bytes : List Nat) (n : Nat), n ≤ bytes.length →
    (ctor bytes n).size = n ∧ (ctor bytes n).address.take n = bytes.take n

/-- How `tcp_server_add_port` ends: with a null listener dereferenced, or returning an
error, with the content of `*out_port`, the server and the listeners' world. -/
inductive AddPortResult (L : Type)
  | null_dereference
  | returned (error : grpc_error) (out_port : Int) (s : TcpState) (world : L)

/-- `tcp_server_add_port` (`tcp.cc` lines 152-163).  `ctor` is the `ResolvedAddress`
constructor, `Bind` the listener's `Bind` (a port or a status, over the listeners'
world `L`), `out_port` the content of `*out_port` before the call. -/
def tcp_server_add_port {L : Type} (ctor : List Nat → Nat → ResolvedAddress)
    (Bind : Ptr → ResolvedAddress → L → Except absl_Status Int × L) (s : TcpState)
    (addr : grpc_resolved_address) (out_port : Int) (w : L) : AddPortResult L :=
  let ra := ctor addr.addr addr.len
  match s.server.listener with
  | none => AddPortResult.null_dereference
  | some l =>
    let port := Bind l.handle ra w
    match port.1 with
    | Except.error st =>
      AddPortResult.returned (absl_status_to_grpc_error st) out_port s port.2
    | Except.ok p => AddPortResult.returned grpc_error.GRPC_ERROR_NONE p s port.2

/-- How `tcp_connect` ends: with a null engine dereferenced, or returning; in both
cases `*endpoint` has been set. -/
inductive ConnectResult (L : Type)
  | null_dereference (endpoint : Ptr)
  | returned (endpoint : Ptr) (world : L)

/-- `tcp_connect` (`tcp.cc` lines 80-104).  `ee` is what `GetDefaultEventEngine()`
returned, `Connect` the engine's `Connect` (given the engine, the connect callback, the
address and the deadline, over a world `L`), `ee_endpoint` what `grpc_endpoint_create`
returned.  The status `Connect` returns is tested and dropped. -/
def tcp_connect {L : Type} (ee : Option EventEngine)
    (Connect : Ptr → (absl_Status → Option Endpoint → ConnectState → Run ConnectState) →
      ResolvedAddress → Nat → L → absl_Status × L)
    (ctor : List Nat → Nat → ResolvedAddress)
    (grpc_sockaddr_to_uri : grpc_resolved_address → String) (uninit : List Nat)
    (ee_endpoint on_connect : Ptr) (addr : grpc_resolved_address) (deadline : Nat)
    (w : L) : ConnectResult L :=
  let ee_on_connect :=
    GrpcClosureToOnConnectCallback grpc_sockaddr_to_uri uninit on_connect ee_endpoint
  let ra := ctor addr.addr addr.len
  match ee with
  | none => ConnectResult.null_dereference ee_endpoint
  | some e =>
    let r := Connect e.handle ee_on_connect ra deadline w
    ConnectResult.returned ee_endpoint r.2

/-- A test `Bind` over the list of addresses already bound: an address bound before is
refused with status 6 ("address in use"), a new one is bound to port 8080. -/
def test_Bind (_listener : Ptr) (ra : ResolvedAddress) (bound : List ResolvedAddress) :
    Except absl_Status Int × List ResolvedAddress :=
  if ra ∈ bound then (Except.error { code := 6, message := "address in use" }, bound)
  else (Except.ok 8080, bound ++ [ra])

/-- An IPv4 socket address in a 128-byte buffer, with length 16. -/
def test_address : grpc_resolved_address :=
  { addr := [2, 0, 31, 144, 127, 0, 0, 1] ++ List.replicate 120 0, len := 16 }

/-! ## The blocking read -/

/-- C1. A read appends exactly two library calls to the log: one batch submission and
the pluck of its tag.  The batch lists receive-metadata and receive-message when the
context's metadata flag is false at the time of the call, and receive-message alone
when it is true; its context is the reader's context, the call is the reader's call,
the request is the zero message and the response pointer is passed through. -/
theorem C1_read_submits_one_batch (rt : Runtime W α) (frame : Ptr)
    (reader : grpc_client_reader) (response : Ptr) (s : State W α) :
    (GRPC_server_streaming_blocking_read rt frame reader response s).2.trace =
      s.trace ++
        [Event.start_batch reader.call
          (if (s.mem reader.context).initial_metadata_received = false then frame
           else frame + 1)
          { operations :=
              if (s.mem reader.context).initial_metadata_received = false then
                [grpc_op_recv_metadata, grpc_op_recv_object]
              else [grpc_op_recv_object]
            context := reader.context
            user_tag :=
              if (s.mem reader.context).initial_metadata_received = false then frame
              else frame + 1
            message_received := false }
          reader.context GRPC_message.zero response,
         Event.pluck reader.cq
          (if (s.mem reader.context).initial_metadata_received = false then frame
           else frame + 1)] := by
  cases h : (s.mem reader.context).initial_metadata_received <;>
    simp [GRPC_server_streaming_blocking_read, start_batch, pluck, TAG, h]

/-- The read, expressed through the batch it submits. -/
theorem read_eq (rt : Runtime W α) (frame : Ptr) (reader : grpc_client_reader)
    (response : Ptr) (s : State W α) :
    GRPC_server_streaming_blocking_read rt frame reader response s =
      let rb := read_batch frame reader (s.mem reader.context).initial_metadata_received
      let b := start_batch rt reader.call rb.1 rb.2 reader.context GRPC_message.zero
        response s
      let p := pluck rt reader.cq (TAG rb.1) b.1 b.2
      (p.1 && p.2.1.message_received, p.2.2) := by
  cases h : (s.mem reader.context).initial_metadata_received <;>
    simp [GRPC_server_streaming_blocking_read, read_batch, h]

/-- C2. A read returns true exactly when the pluck of the submitted batch's tag
reported success and that batch's message-received flag is set once the pluck has
returned; a batch that completes successfully without a message yields false. -/
theorem C2_read_true_iff_plucked_and_message (rt : Runtime W α) (frame : Ptr)
    (reader : grpc_client_reader) (response : Ptr) (s : State W α) :
    let rb := read_batch frame reader (s.mem reader.context).initial_metadata_received
    let b := start_batch rt reader.call rb.1 rb.2 reader.context GRPC_message.zero
      response s
    let p := pluck rt reader.cq (TAG rb.1) b.1 b.2
    ((GRPC_server_streaming_blocking_read rt frame reader response s).1 = true ↔
        (p.1 = true ∧ p.2.1.message_received = true)) ∧
      (p.1 = true → p.2.1.message_received = false →
        (GRPC_server_streaming_blocking_read rt frame reader response s).1 = false) := by
  rw [read_eq]
  constructor
  · simp
  · intro h1 h2
    simp [h1, h2]

/-! ## Metadata is requested once -/

theorem submitted_append (xs ys : List Event) :
    submitted (xs ++ ys) = submitted xs ++ submitted ys := by
  induction xs with
  | nil => rfl
  | cons e es ih => cases e <;> simp [submitted, ih]

theorem read_batch_context (frame : Ptr) (reader : grpc_client_reader) (flag : Bool) :
    (read_batch frame reader flag).2.context = reader.context := by
  cases flag <;> rfl

/-- The log after a read: the submission of `read_batch` and the pluck of its tag. -/
theorem read_trace (rt : Runtime W α) (frame : Ptr) (reader : grpc_client_reader)
    (response : Ptr) (s : State W α) :
    (GRPC_server_streaming_blocking_read rt frame reader response s).2.trace =
      s.trace ++
        [Event.start_batch reader.call
          (read_batch frame reader (s.mem reader.context).initial_metadata_received).1
          (read_batch frame reader (s.mem reader.context).initial_metadata_received).2
          reader.context GRPC_message.zero response,
         Event.pluck reader.cq
          (read_batch frame reader (s.mem reader.context).initial_metadata_received).1] := by
  rw [read_eq]
  simp [start_batch, pluck, TAG]

/-- Under the executor assumption, a read leaves the flag set if it requested metadata
or if the flag was already set. -/
theorem read_flag (rt : Runtime W α) (h : rt.SetsMetadataFlag) (frame : Ptr)
    (reader : grpc_client_reader) (response : Ptr) (s : State W α) :
    ((GRPC_server_streaming_blocking_read rt frame reader response s).2.mem
      reader.context).initial_metadata_received = true := by
  have hb := h reader.call reader.cq
    (read_batch frame reader (s.mem reader.context).initial_metadata_received).1
    (read_batch frame reader (s.mem reader.context).initial_metadata_received).2
    GRPC_message.zero response s
  rw [read_eq]
  simp only [read_batch_context] at hb
  cases hf : (s.mem reader.context).initial_metadata_received with
  | false =>
    rw [hf] at hb
    exact hb.1 (by simp [read_batch])
  | true =>
    rw [hf] at hb
    exact hb.2 rfl

/-- Once the flag is set, every read of a sequence submits receive-message alone. -/
theorem reads_after_metadata (rt : Runtime W α) (h : rt.SetsMetadataFlag)
    (reader : grpc_client_reader) (rest : List (Ptr × Ptr)) (s : State W α)
    (hs : (s.mem reader.context).initial_metadata_received = true) :
    submitted (reads rt reader rest s).2.trace =
      submitted s.trace ++ rest.map (fun fr => (read_batch fr.1 reader true).2) := by
  induction rest generalizing s with
  | nil => simp [reads]
  | cons fr rest ih =>
    have hflag := read_flag rt h fr.1 reader fr.2 s
    have htr := read_trace rt fr.1 reader fr.2 s
    simp only [reads]
    rw [ih _ hflag, htr, hs, submitted_append]
    simp [submitted]

/-- C3. On a call whose metadata flag is clear, with an executor that sets the flag
when a batch listing receive-metadata completes (and never clears it), a sequence of
reads submits receive-metadata in its first batch and in no later one, whatever the
batches delivered: the first batch is [recv_metadata, recv_object] and every later
batch is [recv_object]. -/
theorem C3_metadata_requested_once (rt : Runtime W α) (h : rt.SetsMetadataFlag)
    (reader : grpc_client_reader) (first : Ptr × Ptr) (rest : List (Ptr × Ptr))
    (s : State W α)
    (hs : (s.mem reader.context).initial_metadata_received = false) :
    ∃ b0 bs,
      submitted (reads rt reader (first :: rest) s).2.trace =
        submitted s.trace ++ b0 :: bs ∧
      bs.length = rest.length ∧
      b0.operations = [grpc_op_recv_metadata, grpc_op_recv_object] ∧
      grpc_op_recv_metadata ∈ b0.operations ∧
      ∀ b ∈ bs, b.operations = [grpc_op_recv_object] ∧
        grpc_op_recv_metadata ∉ b.operations := by
  refine ⟨(read_batch first.1 reader false).2,
    rest.map (fun fr => (read_batch fr.1 reader true).2), ?_, by simp, rfl,
    by simp [read_batch], ?_⟩
  · have hflag := read_flag rt h first.1 reader first.2 s
    have htr := read_trace rt first.1 reader first.2 s
    simp only [reads]
    rw [reads_after_metadata rt h reader rest _ hflag, htr, hs, submitted_append]
    simp [submitted]
  · intro b hb
    simp only [List.mem_map] at hb
    obtain ⟨fr, _, rfl⟩ := hb
    simp [read_batch]

/-- The scripted executor satisfies the assumption of C3. -/
theorem scripted_sets_metadata_flag : scripted.SetsMetadataFlag := by
  intro call cq addr set request response s
  simp only [start_batch, pluck, scripted, BatchWrite.apply, Function.update_same,
    Bool.or_eq_true, decide_eq_true_eq]
  exact ⟨fun hm => Or.inr hm, fun hf => Or.inl hf⟩

/-- C3 at a concrete run: three reads against a peer whose first delivery carries no
message. -/
theorem C3_metadata_requested_once_witness :
    ∃ b0 bs,
      submitted (reads scripted { context := 7, call := 200, cq := 100 }
        ((10, 50) :: [(10, 51), (10, 52)])
        (fresh_state [⟨true, false, ⟨true, 0, ""⟩⟩])).2.trace =
        submitted (fresh_state [⟨true, false, ⟨true, 0, ""⟩⟩]).trace ++ b0 :: bs ∧
      bs.length = [(10, 51), (10, 52)].length ∧
      b0.operations = [grpc_op_recv_metadata, grpc_op_recv_object] ∧
      grpc_op_recv_metadata ∈ b0.operations ∧
      ∀ b ∈ bs, b.operations = [grpc_op_recv_object] ∧
        grpc_op_recv_metadata ∉ b.operations :=
  C3_metadata_requested_once scripted scripted_sets_metadata_flag
    { context := 7, call := 200, cq := 100 } (10, 50) [(10, 51), (10, 52)]
    (fresh_state [⟨true, false, ⟨true, 0, ""⟩⟩]) rfl

/-! ## Terminate and open -/

theorem destroy_events_append (xs ys : List TcpEvent) :
    destroy_events (xs ++ ys) = destroy_events xs ++ destroy_events ys := by
  simp [destroy_events]

theorem closure_runs_append (xs ys : List TcpEvent) :
    closure_runs (xs ++ ys) = closure_runs xs ++ closure_runs ys := by
  simp [closure_runs]

theorem closure_runs_map (cs : List Ptr) :
    closure_runs (cs.map (fun c => TcpEvent.closure_run c grpc_error.GRPC_ERROR_NONE)) =
      cs := by
  induction cs with
  | nil => rfl
  | cons c cs ih =>
    simp only [List.map_cons, closure_runs, List.filterMap_cons] at ih ⊢
    rw [ih]

theorem destroy_events_map (cs : List Ptr) :
    destroy_events
      (cs.map (fun c => TcpEvent.closure_run c grpc_error.GRPC_ERROR_NONE)) = [] := by
  induction cs with
  | nil => rfl
  | cons c cs ih =>
    simp only [List.map_cons, destroy_events] at ih ⊢
    rw [List.filter_cons_of_neg (by simp)]
    exact ih

theorem destroy_count_eq (t : List TcpEvent) :
    destroy_count t = (destroy_events t).count TcpEvent.free_server := by
  unfold destroy_count destroy_events
  rw [List.count_filter]
  rfl

theorem registered_append (xs ys : List ServerOp) :
    registered (xs ++ ys) = registered xs ++ registered ys := by
  induction xs with
  | nil => rfl
  | cons x xs ih => cases x <;> simp [registered, ih]

/-- No call can follow the free: a run from a freed server is defined only when it is
empty. -/
theorem run_ops_freed (ops : List ServerOp) (t : List TcpEvent) (m : ServerMem)
    (h : run_ops ops (ServerMem.freed t) = some m) : ops = [] ∧ m = ServerMem.freed t := by
  cases ops with
  | nil =>
    simp only [run_ops, Option.some.injEq] at h
    exact ⟨rfl, h.symm⟩
  | cons op ops => simp [run_ops] at h

theorem run_ops_append (xs ys : List ServerOp) (m : ServerMem) :
    run_ops (xs ++ ys) m = (run_ops xs m).bind (run_ops ys) := by
  induction xs generalizing m with
  | nil => simp [run_ops]
  | cons x xs ih =>
    cases m with
    | live s => simpa [run_ops] using ih (x.step s)
    | freed t => simp [run_ops]

/-- The state `tcp_server_create` builds is live, with count one. -/
theorem create_alive (ee : EventEngine) (sc args_rq new_rq : Ptr) (s0 : TcpState)
    (err : grpc_error)
    (hc : tcp_server_create (some ee) sc args_rq new_rq = CreateResult.created s0 err) :
    s0.server.refs = 1 ∧
      ∃ l, Alive l ee.handle (if args_rq = NULL then new_rq else args_rq) [] s0 := by
  unfold tcp_server_create at hc
  simp only at hc
  split at hc
  · exact absurd hc (by simp)
  · rename_i h st
    injection hc with hs _
    subst hs
    exact ⟨rfl, h, by simp [gpr_ref_init], rfl, rfl, rfl, rfl, rfl, rfl⟩

/-- A call other than the unref from count one leaves a live server allocated and
live. -/
theorem alive_step (l e rq : Ptr) (cs : List Ptr) (s : TcpState) (op : ServerOp)
    (h : Alive l e rq cs s) (hop : ¬ (op = ServerOp.unref ∧ s.server.refs = 1)) :
    ∃ s', op.step s = ServerMem.live s' ∧ Alive l e rq (cs ++ registered [op]) s' := by
  obtain ⟨h1, h2, h3, h4, h5, h6, h7⟩ := h
  cases op with
  | ref =>
    refine ⟨tcp_server_ref s, rfl, ?_, h2, h3, h4, by simpa [registered] using h5, h6, h7⟩
    simp only [tcp_server_ref, gpr_ref_non_zero]
    omega
  | unref =>
    have hne : s.server.refs ≠ 1 := fun h => hop ⟨rfl, h⟩
    refine ⟨{ s with server := { s.server with refs := s.server.refs - 1 } }, ?_, ?_, h2,
      h3, h4, by simpa [registered] using h5, h6, h7⟩
    · simp [ServerOp.step, tcp_server_unref, gpr_unref, hne]
    · show 1 ≤ s.server.refs - 1
      omega
  | shutdown_starting_add c =>
    refine ⟨tcp_server_shutdown_starting_add s c, rfl, h1, h2, h3, h4, ?_, ?_, ?_⟩
    · simp [tcp_server_shutdown_starting_add, registered, h5]
    · simp only [tcp_server_shutdown_starting_add, destroy_events_append, h6]
      rfl
    · simp only [tcp_server_shutdown_starting_add, closure_runs_append, h7]
      rfl
  | shutdown_listeners =>
    exact ⟨s, rfl, h1, h2, h3, h4, by simpa [registered] using h5, h6, h7⟩

/-- The unref from count one runs the closures of a live server, destroys it and frees
it. -/
theorem alive_last_unref (l e rq : Ptr) (cs : List Ptr) (s : TcpState)
    (h : Alive l e rq cs s) (hone : s.server.refs = 1) :
    tcp_server_unref s = ServerMem.freed (last_unref_trace l e rq s) := by
  obtain ⟨h1, h2, h3, h4, h5, h6, h7⟩ := h
  cases hl : s.server.listener with
  | none => simp [hl] at h2
  | some lis =>
    have hh : lis.handle = l := by simpa [hl] using h2
    simp [tcp_server_unref, gpr_unref, hone, tcp_server_destroy, hl, h3, h4, hh,
      last_unref_trace, RunList]

theorem last_unref_destroy_events (l e rq : Ptr) (cs : List Ptr) (s : TcpState)
    (h : Alive l e rq cs s) :
    destroy_events (last_unref_trace l e rq s) =
      [TcpEvent.mu_destroy, TcpEvent.listener_release l, TcpEvent.engine_release e,
       TcpEvent.resource_quota_unref rq, TcpEvent.free_server] := by
  simp only [last_unref_trace, destroy_events_append, h.2.2.2.2.2.1, destroy_events_map]
  rfl

theorem last_unref_closure_runs (l e rq : Ptr) (cs : List Ptr) (s : TcpState)
    (h : Alive l e rq cs s) : closure_runs (last_unref_trace l e rq s) = cs := by
  simp only [last_unref_trace, closure_runs_append, h.2.2.2.2.2.2, closure_runs_map,
    h.2.2.2.2.1]
  simp [closure_runs]

theorem alive_destroy_count (l e rq : Ptr) (cs : List Ptr) (s : TcpState)
    (h : Alive l e rq cs s) : destroy_count s.trace = 0 := by
  rw [destroy_count_eq, h.2.2.2.2.2.1]
  rfl

theorem last_unref_destroy_count (l e rq : Ptr) (cs : List Ptr) (s : TcpState)
    (h : Alive l e rq cs s) : destroy_count (last_unref_trace l e rq s) = 1 := by
  rw [destroy_count_eq, last_unref_destroy_events l e rq cs s h]
  simp

/-- A run from a live server that makes no call on freed memory either ends live, or
ends with the unref taken at count one, which frees the server. -/
theorem alive_run (l e rq : Ptr) (ops : List ServerOp) :
    ∀ (cs : List Ptr) (s : TcpState) (m : ServerMem), Alive l e rq cs s →
      run_ops ops (ServerMem.live s) = some m →
      (∃ s', m = ServerMem.live s' ∧ Alive l e rq (cs ++ registered ops) s') ∨
      ∃ pre s', ops = pre ++ [ServerOp.unref] ∧
        run_ops pre (ServerMem.live s) = some (ServerMem.live s') ∧
        Alive l e rq (cs ++ registered pre) s' ∧ s'.server.refs = 1 ∧
        m = ServerMem.freed (last_unref_trace l e rq s') := by
  induction ops with
  | nil =>
    intro cs s m h hrun
    simp only [run_ops, Option.some.injEq] at hrun
    left
    exact ⟨s, hrun.symm, by simpa [registered] using h⟩
  | cons op ops ih =>
    intro cs s m h hrun
    simp only [run_ops] at hrun
    by_cases hz : op = ServerOp.unref ∧ s.server.refs = 1
    · right
      obtain ⟨rfl, hone⟩ := hz
      have hu : ServerOp.unref.step s = ServerMem.freed (last_unref_trace l e rq s) :=
        alive_last_unref l e rq cs s h hone
      rw [hu] at hrun
      obtain ⟨hops, hm⟩ := run_ops_freed ops _ m hrun
      subst hops
      exact ⟨[], s, rfl, rfl, by simpa [registered] using h, hone, hm⟩
    · obtain ⟨s1, hstep, ha⟩ := alive_step l e rq cs s op h hz
      rw [hstep] at hrun
      have hr : ∀ xs, cs ++ registered [op] ++ registered xs = cs ++ registered (op :: xs) := by
        intro xs
        have := registered_append [op] xs
        simp only [List.singleton_append] at this
        rw [this, List.append_assoc]
      rcases ih (cs ++ registered [op]) s1 m ha hrun with ⟨s', hm, hal⟩ | ⟨pre, s', hops, hpre, hal, hone, hm⟩
      · left
        exact ⟨s', hm, by rw [← hr]; exact hal⟩
      · right
        refine ⟨op :: pre, s', by simp [hops], ?_, by rw [← hr]; exact hal, hone, hm⟩
        simp only [run_ops, hstep]
        exact hpre

/-- Where a defined run is cut before a call, the server is allocated and live, and the
rest of the run starts from that call. -/
theorem cut_alive (l e rq : Ptr) (pre post : List ServerOp) (op : ServerOp)
    (s0 : TcpState) (m : ServerMem) (h : Alive l e rq [] s0)
    (hrun : run_ops (pre ++ op :: post) (ServerMem.live s0) = some m) :
    ∃ s, run_ops pre (ServerMem.live s0) = some (ServerMem.live s) ∧
      Alive l e rq (registered pre) s ∧ run_ops post (op.step s) = some m := by
  rw [run_ops_append] at hrun
  cases hp : run_ops pre (ServerMem.live s0) with
  | none => simp [hp] at hrun
  | some m1 =>
    rw [hp] at hrun
    cases m1 with
    | freed t => simp [run_ops] at hrun
    | live s =>
      refine ⟨s, rfl, ?_, by simpa [run_ops] using hrun⟩
      rcases alive_run l e rq pre [] s0 _ h hp with ⟨s', hm, hal⟩ | ⟨_, _, _, _, _, _, hm⟩
      · injection hm with hm
        subst hm
        simpa using hal
      · exact absurd hm (by simp)

/-- At a live server, a call adds a destroy exactly when it is the unref taken at count
one. -/
theorem step_destroy_count (l e rq : Ptr) (cs : List Ptr) (s : TcpState) (op : ServerOp)
    (h : Alive l e rq cs s) :
    destroy_count (op.step s).trace =
      if op = ServerOp.unref ∧ s.server.refs = 1 then 1 else 0 := by
  by_cases hz : op = ServerOp.unref ∧ s.server.refs = 1
  · rw [if_pos hz]
    obtain ⟨rfl, hone⟩ := hz
    show destroy_count (tcp_server_unref s).trace = 1
    rw [alive_last_unref l e rq cs s h hone]
    exact last_unref_destroy_count l e rq cs s h
  · rw [if_neg hz]
    obtain ⟨s', hstep, ha⟩ := alive_step l e rq cs s op h hz
    rw [hstep]
    exact alive_destroy_count l e rq _ s' ha

/-- C4. From the server `tcp_server_create` builds, whose count is one, along every
sequence of vtable calls that makes no call on the freed server: every call finds a
positive count and no destroy in the log; a call adds a destroy exactly when it is the
unref taken at count one (the unref that brings the count to zero), and no earlier
call does.  When the sequence contains that unref it is its last call,
`tcp_server_destroy` has run exactly once, and what it did is, once each: destroy the
mutex, release the listener, drop the engine, unref the resource quota, free the
server.  A sequence without that unref leaves the server allocated, with no destroy. -/
theorem C4_destroy_once_at_zero_unref (ee : EventEngine) (sc args_rq new_rq : Ptr)
    (s0 : TcpState) (err : grpc_error)
    (hc : tcp_server_create (some ee) sc args_rq new_rq = CreateResult.created s0 err)
    (ops : List ServerOp) (m : ServerMem)
    (hrun : run_ops ops (ServerMem.live s0) = some m) :
    s0.server.refs = 1 ∧
      ∃ l, s0.server.listener.map Listener.handle = some l ∧
        (∀ pre op post, ops = pre ++ op :: post →
          ∃ s, run_ops pre (ServerMem.live s0) = some (ServerMem.live s) ∧
            0 < s.server.refs ∧ destroy_count s.trace = 0 ∧
            destroy_count (op.step s).trace =
              if op = ServerOp.unref ∧ s.server.refs = 1 then 1 else 0) ∧
        (∀ pre post s, ops = pre ++ ServerOp.unref :: post →
          run_ops pre (ServerMem.live s0) = some (ServerMem.live s) →
          s.server.refs = 1 →
            post = [] ∧
            m = ServerMem.freed
              (last_unref_trace l ee.handle s0.server.resource_quota s) ∧
            destroy_count m.trace = 1 ∧
            destroy_events m.trace =
              [TcpEvent.mu_destroy, TcpEvent.listener_release l,
               TcpEvent.engine_release ee.handle,
               TcpEvent.resource_quota_unref s0.server.resource_quota,
               TcpEvent.free_server]) ∧
        (∀ s, m = ServerMem.live s → 0 < s.server.refs ∧ destroy_count s.trace = 0) ∧
        destroy_count m.trace ≤ 1 := by
  obtain ⟨hrefs, l, hal⟩ := create_alive ee sc args_rq new_rq s0 err hc
  have hrq : s0.server.resource_quota = (if args_rq = NULL then new_rq else args_rq) :=
    hal.2.2.2.1
  rw [hrq]
  refine ⟨hrefs, l, hal.2.1, ?_, ?_, ?_, ?_⟩
  · intro pre op post hops
    subst hops
    obtain ⟨s, hpre, ha, _⟩ := cut_alive l _ _ pre post op s0 m hal hrun
    exact ⟨s, hpre, by have := ha.1; omega, alive_destroy_count l _ _ _ s ha,
      step_destroy_count l _ _ _ s op ha⟩
  · intro pre post s hops hpre hone
    subst hops
    obtain ⟨s', hpre', ha, hpost⟩ := cut_alive l _ _ pre post ServerOp.unref s0 m hal hrun
    rw [hpre] at hpre'
    injection hpre' with hpre'
    injection hpre' with hpre'
    subst hpre'
    have hu : ServerOp.unref.step s = ServerMem.freed (last_unref_trace l _ _ s) :=
      alive_last_unref l _ _ _ s ha hone
    rw [hu] at hpost
    obtain ⟨hnil, hm⟩ := run_ops_freed post _ m hpost
    subst hm
    exact ⟨hnil, rfl, last_unref_destroy_count l _ _ _ s ha,
      last_unref_destroy_events l _ _ _ s ha⟩
  · intro s hm
    subst hm
    rcases alive_run l _ _ ops [] s0 _ hal hrun with ⟨s', hm, ha⟩ | ⟨_, _, _, _, _, _, hm⟩
    · injection hm with hm
      subst hm
      exact ⟨by have := ha.1; omega, alive_destroy_count l _ _ _ s ha⟩
    · exact absurd hm (by simp)
  · rcases alive_run l _ _ ops [] s0 _ hal hrun with ⟨s', hm, ha⟩ | ⟨_, s', _, _, ha, _, hm⟩
    · subst hm
      show destroy_count s'.trace ≤ 1
      rw [alive_destroy_count l _ _ _ s' ha]
      omega
    · subst hm
      show destroy_count (last_unref_trace l _ _ s') ≤ 1
      rw [last_unref_destroy_count l _ _ _ s' ha]

/-- C4 at a concrete run: create, ref, register closure 77, unref, and the unref taken
at count one. -/
theorem C4_destroy_once_at_zero_unref_witness :
    tcp_server_create (some test_engine) 40 30 31 =
        CreateResult.created test_server grpc_error.GRPC_ERROR_NONE ∧
      run_ops [ServerOp.ref, ServerOp.shutdown_starting_add 77, ServerOp.unref]
        (ServerMem.live test_server) = some (ServerMem.live test_server_at_one) ∧
      run_ops
        [ServerOp.ref, ServerOp.shutdown_starting_add 77, ServerOp.unref, ServerOp.unref]
        (ServerMem.live test_server) =
        some (ServerMem.freed (last_unref_trace 11 9 30 test_server_at_one)) ∧
      destroy_count test_server_at_one.trace = 0 ∧
      destroy_count (last_unref_trace 11 9 30 test_server_at_one) = 1 ∧
      destroy_events (last_unref_trace 11 9 30 test_server_at_one) =
        [TcpEvent.mu_destroy, TcpEvent.listener_release 11, TcpEvent.engine_release 9,
         TcpEvent.resource_quota_unref 30, TcpEvent.free_server] := by
  obtain ⟨_, l, hl, _, h4, _, _⟩ :=
    C4_destroy_once_at_zero_unref test_engine 40 30 31 test_server
      grpc_error.GRPC_ERROR_NONE rfl
      [ServerOp.ref, ServerOp.shutdown_starting_add 77, ServerOp.unref, ServerOp.unref]
      (ServerMem.freed (last_unref_trace 11 9 30 test_server_at_one)) rfl
  have hl11 : l = 11 := by
    have h : some (11 : Ptr) = some l := hl
    injection h with h
    exact h.symm
  subst hl11
  have h := h4 [ServerOp.ref, ServerOp.shutdown_starting_add 77, ServerOp.unref] []
    test_server_at_one rfl rfl rfl
  exact ⟨rfl, rfl, rfl, by decide, h.2.2.1, h.2.2.2⟩

/-! ## Shutdown-starting closures -/

/-- C10 (amended). `tcp_server_shutdown_listeners` is a no-op: it runs no closure and
leaves the server and the log as they are.  From the server `tcp_server_create`
builds, along every sequence of vtable calls that makes no call on the freed server:
before each call no closure has run and the list holds the closures registered so far,
and a call other than the unref taken at count one runs none.  That unref runs the
closures registered before it, once each and in registration order, under the mutex and
before `tcp_server_destroy`, whose events follow and which frees the server.  A sequence
without that unref runs none. -/
theorem C10_closures_run_by_last_unref (ee : EventEngine) (sc args_rq new_rq : Ptr)
    (s0 : TcpState) (err : grpc_error)
    (hc : tcp_server_create (some ee) sc args_rq new_rq = CreateResult.created s0 err)
    (ops : List ServerOp) (m : ServerMem)
    (hrun : run_ops ops (ServerMem.live s0) = some m) :
    (∀ s : TcpState, tcp_server_shutdown_listeners s = s) ∧
      ∃ l, s0.server.listener.map Listener.handle = some l ∧
        (∀ pre op post, ops = pre ++ op :: post →
          ∃ s, run_ops pre (ServerMem.live s0) = some (ServerMem.live s) ∧
            closure_runs s.trace = [] ∧
            s.server.shutdown_starting = registered pre ∧
            (¬ (op = ServerOp.unref ∧ s.server.refs = 1) →
              closure_runs (op.step s).trace = [])) ∧
        (∀ pre post s, ops = pre ++ ServerOp.unref :: post →
          run_ops pre (ServerMem.live s0) = some (ServerMem.live s) →
          s.server.refs = 1 →
            m = ServerMem.freed
              (s.trace ++ [TcpEvent.mu_lock] ++
                (registered pre).map
                  (fun c => TcpEvent.closure_run c grpc_error.GRPC_ERROR_NONE) ++
                [TcpEvent.exec_ctx_flush, TcpEvent.mu_unlock, TcpEvent.mu_destroy,
                 TcpEvent.listener_release l, TcpEvent.engine_release ee.handle,
                 TcpEvent.resource_quota_unref s0.server.resource_quota,
                 TcpEvent.free_server]) ∧
            closure_runs m.trace = registered pre) ∧
        (∀ s, m = ServerMem.live s → closure_runs s.trace = []) := by
  obtain ⟨_, l, hal⟩ := create_alive ee sc args_rq new_rq s0 err hc
  have hrq : s0.server.resource_quota = (if args_rq = NULL then new_rq else args_rq) :=
    hal.2.2.2.1
  rw [hrq]
  refine ⟨fun _ => rfl, l, hal.2.1, ?_, ?_, ?_⟩
  · intro pre op post hops
    subst hops
    obtain ⟨s, hpre, ha, _⟩ := cut_alive l _ _ pre post op s0 m hal hrun
    refine ⟨s, hpre, ha.2.2.2.2.2.2, by simpa using ha.2.2.2.2.1, ?_⟩
    intro hz
    obtain ⟨s', hstep, ha'⟩ := alive_step l _ _ _ s op ha hz
    rw [hstep]
    exact ha'.2.2.2.2.2.2
  · intro pre post s hops hpre hone
    subst hops
    obtain ⟨s', hpre', ha, hpost⟩ := cut_alive l _ _ pre post ServerOp.unref s0 m hal hrun
    rw [hpre] at hpre'
    injection hpre' with hpre'
    injection hpre' with hpre'
    subst hpre'
    have hu : ServerOp.unref.step s = ServerMem.freed (last_unref_trace l _ _ s) :=
      alive_last_unref l _ _ _ s ha hone
    rw [hu] at hpost
    obtain ⟨_, hm⟩ := run_ops_freed post _ m hpost
    subst hm
    have hlist : s.server.shutdown_starting = registered pre := by
      simpa using ha.2.2.2.2.1
    refine ⟨?_, ?_⟩
    · simp only [last_unref_trace, hlist]
    · have := last_unref_closure_runs l _ _ _ s ha
      simpa using this
  · intro s hm
    subst hm
    rcases alive_run l _ _ ops [] s0 _ hal hrun with ⟨s', hm, ha⟩ | ⟨_, _, _, _, _, _, hm⟩
    · injection hm with hm
      subst hm
      exact ha.2.2.2.2.2.2
    · exact absurd hm (by simp)

/-- C10 (amended) at a concrete run: closure 77 is registered, the count goes to two and
back to one, and the last unref runs the closure before the destroy. -/
theorem C10_closures_run_by_last_unref_witness :
    run_ops
        [ServerOp.ref, ServerOp.shutdown_starting_add 77, ServerOp.unref, ServerOp.unref]
        (ServerMem.live test_server) =
      some (ServerMem.freed
        [TcpEvent.mu_init, TcpEvent.mu_lock, TcpEvent.mu_unlock, TcpEvent.mu_lock,
         TcpEvent.closure_run 77 grpc_error.GRPC_ERROR_NONE, TcpEvent.exec_ctx_flush,
         TcpEvent.mu_unlock, TcpEvent.mu_destroy, TcpEvent.listener_release 11,
         TcpEvent.engine_release 9, TcpEvent.resource_quota_unref 30,
         TcpEvent.free_server]) ∧
      closure_runs
        [TcpEvent.mu_init, TcpEvent.mu_lock, TcpEvent.mu_unlock, TcpEvent.mu_lock,
         TcpEvent.closure_run 77 grpc_error.GRPC_ERROR_NONE, TcpEvent.exec_ctx_flush,
         TcpEvent.mu_unlock, TcpEvent.mu_destroy, TcpEvent.listener_release 11,
         TcpEvent.engine_release 9, TcpEvent.resource_quota_unref 30,
         TcpEvent.free_server] = [77] := by
  obtain ⟨_, l, _, _, h4, _⟩ :=
    C10_closures_run_by_last_unref test_engine 40 30 31 test_server
      grpc_error.GRPC_ERROR_NONE rfl
      [ServerOp.ref, ServerOp.shutdown_starting_add 77, ServerOp.unref, ServerOp.unref]
      (ServerMem.freed
        [TcpEvent.mu_init, TcpEvent.mu_lock, TcpEvent.mu_unlock, TcpEvent.mu_lock,
         TcpEvent.closure_run 77 grpc_error.GRPC_ERROR_NONE, TcpEvent.exec_ctx_flush,
         TcpEvent.mu_unlock, TcpEvent.mu_destroy, TcpEvent.listener_release 11,
         TcpEvent.engine_release 9, TcpEvent.resource_quota_unref 30,
         TcpEvent.free_server]) rfl
  have h := h4 [ServerOp.ref, ServerOp.shutdown_starting_add 77, ServerOp.unref] []
    test_server_at_one rfl rfl rfl
  exact ⟨rfl, h.2⟩

/-- C10 as stated fails: with closure 77 registered, `tcp_server_shutdown_listeners`
runs nothing (server and log are unchanged), and it is the later unref that runs the
closure. -/
theorem C10_counterexample_shutdown_runs_nothing :
    tcp_server_create (some test_engine) 40 30 31 =
        CreateResult.created test_server grpc_error.GRPC_ERROR_NONE ∧
      (tcp_server_shutdown_listeners
        (tcp_server_shutdown_starting_add test_server 77)).trace =
        (tcp_server_shutdown_starting_add test_server 77).trace ∧
      (run_ops [ServerOp.shutdown_starting_add 77, ServerOp.shutdown_listeners]
        (ServerMem.live test_server)).map (fun m => closure_runs m.trace) = some [] ∧
      (run_ops
        [ServerOp.shutdown_starting_add 77, ServerOp.shutdown_listeners, ServerOp.unref]
        (ServerMem.live test_server)).map (fun m => closure_runs m.trace) = some [77] :=
  ⟨rfl, rfl, by decide, by decide⟩

/-! ## The connect and accept callbacks -/

/-- C8 (evaluation). When the engine delivers a completion without an endpoint (the
case of a timeout or a refused connection), the callback built by
`GrpcClosureToOnConnectCallback` does not return and does not run `on_connect`: the log
is unchanged.  This holds for the lambda body whatever its captured references hold,
because the body calls `endpoint->GetLocalAddress()` before `Closure::Run`; and the
callback as built reads a captured parameter that is dead, for every completion. -/
theorem C8_on_connect_without_endpoint (uri : grpc_resolved_address → String)
    (uninit : List Nat) (closure grpc_endpoint_out : Ptr) (status : absl_Status)
    (s : ConnectState) :
    (GrpcClosureToOnConnectCallback uri uninit closure grpc_endpoint_out status none
        s).trace = s.trace ∧
      (∀ s', GrpcClosureToOnConnectCallback uri uninit closure grpc_endpoint_out status
        none s ≠ Run.returned s') ∧
      (∀ c o : Ref Ptr,
        (on_connect_lambda uri uninit c o status none s).trace = s.trace ∧
        ∀ s', on_connect_lambda uri uninit c o status none s ≠ Run.returned s') ∧
      ∀ endpoint : Option Endpoint,
        GrpcClosureToOnConnectCallback uri uninit closure grpc_endpoint_out status
          endpoint s = Run.dangling_reference s := by
  refine ⟨rfl, fun s' h => by simp [GrpcClosureToOnConnectCallback, on_connect_lambda] at h,
    ?_, fun _ => rfl⟩
  intro c o
  cases o with
  | dead => exact ⟨rfl, fun s' h => by simp [on_connect_lambda] at h⟩
  | alive v => exact ⟨rfl, fun s' h => by simp [on_connect_lambda] at h⟩

/-- C9 (evaluation). On the server built by `tcp_server_create`, `tcp_server_start`
changes nothing, and a connection reported by the server's listener (here with an OK
status and an endpoint) has no effect at all: `on_accept_cb` is not invoked. -/
theorem C9_accept_callback_never_invoked :
    tcp_server_create (some test_engine) 40 30 31 =
        CreateResult.created test_server grpc_error.GRPC_ERROR_NONE ∧
      (tcp_server_start test_server [60] 500 600).trace = test_server.trace ∧
      (tcp_server_start test_server [60] 500 600).server.listener.map
          (fun l => l.inbound_connection { code := 0, message := "" }
            (some { handle := 70, GetLocalAddress := { address := [2, 0, 31, 144], size := 4 } })) =
        some [] :=
  ⟨rfl, rfl, rfl⟩

/-! ## Adding a port -/

/-- C11. On a server that holds its listener, `tcp_server_add_port` returns, leaving
the server (count, closure list, resource quota) as it was.  It returns an error
exactly when `Bind` failed, and then the error is the conversion of the status of
`Bind` and `*out_port` keeps its content; when `Bind` succeeded the result is
`GRPC_ERROR_NONE` and `*out_port` is the port `Bind` returned.  (A failed `Bind`
carries a status that is not OK.) -/
theorem C11_add_port {L : Type} (ctor : List Nat → Nat → ResolvedAddress)
    (Bind : Ptr → ResolvedAddress → L → Except absl_Status Int × L) (s : TcpState)
    (l : Listener) (hl : s.server.listener = some l) (addr : grpc_resolved_address)
    (out_port : Int) (w : L)
    (hst : ∀ st, (Bind l.handle (ctor addr.addr addr.len) w).1 = Except.error st →
      st.code ≠ 0) :
    ∃ error out,
      tcp_server_add_port ctor Bind s addr out_port w =
        AddPortResult.returned error out s
          (Bind l.handle (ctor addr.addr addr.len) w).2 ∧
      (error ≠ grpc_error.GRPC_ERROR_NONE ↔
        ∃ st, (Bind l.handle (ctor addr.addr addr.len) w).1 = Except.error st) ∧
      (∀ st, (Bind l.handle (ctor addr.addr addr.len) w).1 = Except.error st →
        error = absl_status_to_grpc_error st ∧ out = out_port) ∧
      (∀ p, (Bind l.handle (ctor addr.addr addr.len) w).1 = Except.ok p →
        error = grpc_error.GRPC_ERROR_NONE ∧ out = p) := by
  cases hb : (Bind l.handle (ctor addr.addr addr.len) w).1 with
  | error st =>
    have hne := hst st hb
    refine ⟨absl_status_to_grpc_error st, out_port, ?_, ?_, ?_, ?_⟩
    · simp [tcp_server_add_port, hl, hb]
    · simp [absl_status_to_grpc_error, hne]
    · intro st2 h2
      injection h2 with h2
      subst h2
      exact ⟨rfl, rfl⟩
    · intro p h2
      exact absurd h2 (by simp)
  | ok p =>
    refine ⟨grpc_error.GRPC_ERROR_NONE, p, ?_, ?_, ?_, ?_⟩
    · simp [tcp_server_add_port, hl, hb]
    · simp
    · intro st h2
      exact absurd h2 (by simp)
    · intro p2 h2
      injection h2 with h2
      subst h2
      exact ⟨rfl, rfl⟩

/-- C11 at a concrete call: the address was bound before, so `Bind` fails with status 6;
the error is its conversion, `*out_port` keeps -1 and the server is as it was. -/
theorem C11_add_port_witness :
    tcp_server_add_port (ResolvedAddress.ctor (List.replicate 128 0)) test_Bind
        test_server test_address (-1)
        [ResolvedAddress.ctor (List.replicate 128 0) test_address.addr test_address.len] =
      AddPortResult.returned (grpc_error.from_status 6 "address in use") (-1) test_server
        [ResolvedAddress.ctor (List.replicate 128 0) test_address.addr test_address.len] ∧
    ∃ error out,
      tcp_server_add_port (ResolvedAddress.ctor (List.replicate 128 0)) test_Bind
          test_server test_address (-1)
          [ResolvedAddress.ctor (List.replicate 128 0) test_address.addr
            test_address.len] =
        AddPortResult.returned error out test_server
          (test_Bind 11
            (ResolvedAddress.ctor (List.replicate 128 0) test_address.addr
              test_address.len)
            [ResolvedAddress.ctor (List.replicate 128 0) test_address.addr
              test_address.len]).2 ∧
      (error ≠ grpc_error.GRPC_ERROR_NONE ↔
        ∃ st, (test_Bind 11
          (ResolvedAddress.ctor (List.replicate 128 0) test_address.addr
            test_address.len)
          [ResolvedAddress.ctor (List.replicate 128 0) test_address.addr
            test_address.len]).1 = Except.error st) ∧
      (∀ st, (test_Bind 11
          (ResolvedAddress.ctor (List.replicate 128 0) test_address.addr
            test_address.len)
          [ResolvedAddress.ctor (List.replicate 128 0) test_address.addr
            test_address.len]).1 = Except.error st →
        error = absl_status_to_grpc_error st ∧ out = -1) ∧
      (∀ p, (test_Bind 11
          (ResolvedAddress.ctor (List.replicate 128 0) test_address.addr
            test_address.len)
          [ResolvedAddress.ctor (List.replicate 128 0) test_address.addr
            test_address.len]).1 = Except.ok p →
        error = grpc_error.GRPC_ERROR_NONE ∧ out = p) :=
  ⟨by simp [tcp_server_add_port, test_server, test_Bind, absl_status_to_grpc_error],
   C11_add_port (ResolvedAddress.ctor (List.replicate 128 0)) test_Bind test_server
     { handle := 11, on_accept := GrpcClosureToAcceptCallback NULL } rfl test_address (-1)
     [ResolvedAddress.ctor (List.replicate 128 0) test_address.addr test_address.len]
     (by
       intro st h
       simp only [test_Bind, List.mem_singleton, if_true] at h
       injection h with h
       subst h
       decide)⟩

/-! ## The default engine -/

/-- C12 (evaluation). `GetDefaultEventEngine` returns the null pointer, so for every
input `tcp_server_create` reaches `ee->CreateListener` and `tcp_connect` reaches
`ee->Connect` through a null engine. -/
theorem C12_default_engine_is_null {L : Type} (shutdown_complete args_rq new_rq : Ptr)
    (Connect : Ptr → (absl_Status → Option Endpoint → ConnectState → Run ConnectState) →
      ResolvedAddress → Nat → L → absl_Status × L)
    (ctor : List Nat → Nat → ResolvedAddress)
    (uri : grpc_resolved_address → String) (uninit : List Nat)
    (ee_endpoint on_connect : Ptr) (addr : grpc_resolved_address) (deadline : Nat)
    (w : L) :
    GetDefaultEventEngine = none ∧
      tcp_server_create GetDefaultEventEngine shutdown_complete args_rq new_rq =
        CreateResult.null_dereference ∧
      tcp_connect GetDefaultEventEngine Connect ctor uri uninit ee_endpoint on_connect
          addr deadline w =
        ConnectResult.null_dereference ee_endpoint :=
  ⟨rfl, rfl, rfl⟩

/-! ## Address conversion -/

/-- Copying `n` bytes that the source holds puts exactly those bytes first. -/
theorem memcpy_take (dst src : List Nat) (n : Nat) (h : n ≤ src.length) :
    (memcpy dst src n).take n = src.take n := by
  unfold memcpy
  rw [List.take_append_of_le_length (by simp [h])]
  simp

/-- A copy that fits the destination keeps the destination's size. -/
theorem memcpy_length (dst src : List Nat) (n : Nat) (h : n ≤ src.length)
    (hd : n ≤ dst.length) : (memcpy dst src n).length = dst.length := by
  simp only [memcpy, List.length_append, List.length_take, List.length_drop]
  omega

/-- The constructor modelled from the spec copies the address. -/
theorem ctor_copies (uninit : List Nat) : CopiesAddress (ResolvedAddress.ctor uninit) := by
  intro bytes n h
  exact ⟨rfl, memcpy_take uninit bytes n h⟩

/-- Equal prefixes agree byte for byte. -/
theorem take_eq_getElem (xs ys : List Nat) (n i : Nat) (h : xs.take n = ys.take n)
    (hi : i < n) : xs[i]? = ys[i]? := by
  have h1 : (xs.take n)[i]? = (ys.take n)[i]? := by rw [h]
  simpa [List.getElem?_take, hi] using h1

/-- C13. For a resolved address `ra` whose `size()` bytes lie within its buffer,
`CreateGRPCResolvedAddress(ra)` has `len = ra.size()` and its first `len` bytes are
those behind `ra.address()`, byte for byte (and the 128-byte destination keeps its
size when `len` fits it).  Consequently, for a `grpc_resolved_address` `a` whose `len`
bytes lie within `a.addr`, building a `ResolvedAddress` from `(a.addr, a.len)` with a
constructor that copies the address, and converting back, gives `len = a.len` and the
same first `a.len` bytes. -/
theorem C13_address_round_trip (uninit : List Nat) (ra : ResolvedAddress)
    (hra : ra.size ≤ ra.address.length)
    (ctor : List Nat → Nat → ResolvedAddress) (hctor : CopiesAddress ctor)
    (a : grpc_resolved_address) (ha : a.len ≤ a.addr.length) :
    ((CreateGRPCResolvedAddress uninit ra).len = ra.size ∧
      (CreateGRPCResolvedAddress uninit ra).addr.take
          (CreateGRPCResolvedAddress uninit ra).len = ra.address.take ra.size ∧
      (∀ i, i < (CreateGRPCResolvedAddress uninit ra).len →
        (CreateGRPCResolvedAddress uninit ra).addr[i]? = ra.address[i]?) ∧
      (ra.size ≤ uninit.length →
        (CreateGRPCResolvedAddress uninit ra).addr.length = uninit.length)) ∧
    ((CreateGRPCResolvedAddress uninit (ctor a.addr a.len)).len = a.len ∧
      (CreateGRPCResolvedAddress uninit (ctor a.addr a.len)).addr.take a.len =
        a.addr.take a.len ∧
      ∀ i, i < a.len →
        (CreateGRPCResolvedAddress uninit (ctor a.addr a.len)).addr[i]? = a.addr[i]?) := by
  have hc := hctor a.addr a.len ha
  have hlen : a.len ≤ (ctor a.addr a.len).address.length := by
    have h1 := congrArg List.length hc.2
    simp only [List.length_take] at h1
    omega
  have hback : (CreateGRPCResolvedAddress uninit (ctor a.addr a.len)).addr.take a.len =
      a.addr.take a.len := by
    show (memcpy uninit (ctor a.addr a.len).address (ctor a.addr a.len).size).take a.len
      = a.addr.take a.len
    rw [hc.1, memcpy_take uninit _ a.len hlen, hc.2]
  refine ⟨⟨rfl, memcpy_take uninit ra.address ra.size hra, ?_, ?_⟩, hc.1, hback, ?_⟩
  · intro i hi
    exact take_eq_getElem _ _ ra.size i (memcpy_take uninit ra.address ra.size hra) hi
  · intro hd
    exact memcpy_length uninit ra.address ra.size hra hd
  · intro i hi
    exact take_eq_getElem _ _ a.len i hback hi

/-- C13 at a concrete address: the 16-byte socket address of `test_address`, converted
to a `ResolvedAddress` and back into a buffer that held 7 in every byte. -/
theorem C13_address_round_trip_witness :
    (CreateGRPCResolvedAddress (List.replicate 128 7)
        (ResolvedAddress.ctor (List.replicate 128 0) test_address.addr
          test_address.len)).len = 16 ∧
      (CreateGRPCResolvedAddress (List.replicate 128 7)
        (ResolvedAddress.ctor (List.replicate 128 0) test_address.addr
          test_address.len)).addr.take 16 =
        [2, 0, 31, 144, 127, 0, 0, 1, 0, 0, 0, 0, 0, 0, 0, 0] :=
  ⟨(C13_address_round_trip (List.replicate 128 7)
      (ResolvedAddress.ctor (List.replicate 128 0) test_address.addr test_address.len)
      (by simp [ResolvedAddress.ctor, memcpy, test_address])
      (ResolvedAddress.ctor (List.replicate 128 0))
      (ctor_copies (List.replicate 128 0)) test_address
      (by simp [test_address])).2.1,
   by simp [CreateGRPCResolvedAddress, ResolvedAddress.ctor, memcpy, test_address,
     List.replicate, List.take]⟩

end Grpc
